import Mathlib

/-!
Shallow embedding of the update-query construction and execution pipeline of
the bunnet object-document mapper (bunnet/odm/queries/update.py), together
with theorems checking the specification of that pipeline.

Python dictionaries are embedded as insertion-ordered association lists;
`dict.update` is `dictUpdate` below.  Components of the repository that are
outside the excerpt (BulkWriter, the Max operator object, set_session,
Document.insert_one, the Encoder) are modelled from the spec and marked as
such in their doc comments.
-/

namespace Bunnet

abbrev Field := String
abbrev Keyword := String

/-- Wire-level values appearing in update documents (already BSON-safe). -/
inductive Val where
  | int : Int → Val
  | str : String → Val
  deriving DecidableEq, Repr

/-- A field-path → value mapping, insertion ordered (a Python dict). -/
abbrev FieldMap := List (Field × Val)

/-- An update document: modification keyword → field map (a Python dict). -/
abbrev UDoc := List (Keyword × FieldMap)

/-- Passthrough pymongo keyword arguments. -/
abbrev KwArgs := List (String × Val)

/-- Python `d[k] = v` on an insertion-ordered dict: replace in place if the
key is present, append otherwise. -/
def dictSet {α : Type} (d : List (String × α)) (k : String) (v : α) :
    List (String × α) :=
  if d.any (fun p => p.1 == k) then
    d.map (fun p => if p.1 == k then (k, v) else p)
  else
    d ++ [(k, v)]

/-- Python `d1.update(d2)`: fold `dictSet` over the entries of `d2` in order. -/
def dictUpdate {α : Type} (d other : List (String × α)) : List (String × α) :=
  other.foldl (fun acc p => dictSet acc p.1 p.2) d

/-- Opaque session handle (pymongo ClientSession). -/
structure Session where
  id : Nat
  deriving DecidableEq, Repr

/-- A fully formed document of the owning model type (DocType instance). -/
structure Document where
  id : Nat
  deriving DecidableEq, Repr

/-- The owning document model class (Type[DocType]). -/
structure DocModel where
  name : String
  deriving DecidableEq, Repr

/-- Opaque registry of custom bson encoders of the owning model. -/
abbrev EncoderRegistry := List String

/-- An update-operator value object: exposes its clause as the `query`
mapping from modification keyword to field map
(bunnet/odm/operators/update, treated by the spec as an opaque producer of
key-to-clause mappings). -/
structure BaseUpdateOperator where
  query : UDoc
  deriving DecidableEq, Repr

/-- Modelled from the spec and the test suite: the Max update operator of
bunnet/odm/operators/update/general.py (not part of the excerpt) is an
operator object whose clause maps the keyword dollar-max to the given
field map, as exercised by test_set in
src/tests/odm/query/test_update_methods.py. -/
def Max (m : FieldMap) : BaseUpdateOperator :=
  ⟨[("$max", m)]⟩

/-- One element of the update-expression accumulator, classified the way the
runtime type tests in UpdateQuery.update_query classify it: an instance of
BaseUpdateOperator, an instance of dict, a Mapping that is not a dict
instance, or anything else. -/
inductive UpdateExpression where
  | operator : BaseUpdateOperator → UpdateExpression
  | dict : UDoc → UpdateExpression
  | mappingNonDict : UDoc → UpdateExpression
  | other : UpdateExpression
  deriving DecidableEq, Repr

/-- True when the expression would be merged by update_query (operator or
dict instance). -/
def UpdateExpression.isMergeable : UpdateExpression → Bool
  | .operator _ => true
  | .dict _ => true
  | _ => false

/-- True for expressions that are neither operator objects nor mappings. -/
def UpdateExpression.isOther : UpdateExpression → Bool
  | .other => true
  | _ => false

/-- True for expressions that are Mappings but not dict instances. -/
def UpdateExpression.isNonDictMapping : UpdateExpression → Bool
  | .mappingNonDict _ => true
  | _ => false

/-- Tag of the pymongo request class used for a bulk operation
(pymongo.UpdateOne / pymongo.UpdateMany). -/
inductive PyMongoOp where
  | updateOnePyMongo
  | updateManyPyMongo
  deriving DecidableEq, Repr

/-- A pending bulk operation (bunnet/odm/bulk.py Operation): operation kind,
filter document, update document, owning model class. -/
structure Operation where
  operation : PyMongoOp
  first_query : UDoc
  second_query : UDoc
  object_class : DocModel
  deriving DecidableEq, Repr

/-- Modelled from the spec: the BatchWriter accumulates a sequence of pending
operations for later single-round-trip execution
(bunnet/odm/bulk.py is not part of the excerpt). -/
structure BulkWriter where
  operations : List Operation
  deriving DecidableEq, Repr

/-- Modelled from the spec: add_operation appends one pending operation to
the batch writer's accumulated sequence. -/
def BulkWriter.add_operation (bw : BulkWriter) (op : Operation) : BulkWriter :=
  ⟨bw.operations ++ [op]⟩

/-- The mutable state of an UpdateQuery object
(UpdateQuery.__init__ in bunnet/odm/queries/update.py). -/
structure UpdateQueryState where
  document_model : DocModel
  find_query : UDoc
  update_expressions : List UpdateExpression
  session : Option Session
  is_upsert : Bool
  upsert_insert_doc : Option Document
  encoders : EncoderRegistry
  bulk_writer : Option BulkWriter
  pymongo_kwargs : KwArgs
  deriving DecidableEq, Repr

/-- UpdateQuery.__init__: the state of a freshly constructed query.  The
encoder registry comes from the model's settings (an external collaborator),
so it is passed in here. -/
def UpdateQuery.init (document_model : DocModel) (find_query : UDoc)
    (bson_encoders : EncoderRegistry) : UpdateQueryState :=
  { document_model := document_model
    find_query := find_query
    update_expressions := []
    session := none
    is_upsert := false
    upsert_insert_doc := none
    encoders := bson_encoders
    bulk_writer := none
    pymongo_kwargs := [] }

/-- Modelled from the spec: the Encoder normalizes values to wire-safe form
using the registered custom encoders (bunnet/odm/utils/encoder.py is not
part of the excerpt).  Values of this embedding are already wire-level
primitives, on which normalization is the identity. -/
def Encoder.encode (_custom_encoders : EncoderRegistry) (q : UDoc) : UDoc :=
  q

/-- The accumulation loop of UpdateQuery.update_query: walk the expression
list in order, merging operator clauses and raw dicts into the result with
a top-level dict update, and raising TypeError on anything else. -/
def mergeExpressions : UDoc → List UpdateExpression → Except String UDoc
  | query, [] => .ok query
  | query, e :: rest =>
    match e with
    | .operator op => mergeExpressions (dictUpdate query op.query) rest
    | .dict d => mergeExpressions (dictUpdate query d) rest
    | _ => .error "Wrong expression type"

/-- UpdateQuery.update_query: merge all accumulated expressions, then pass
the result through the Encoder.  Recomputed on every access. -/
def UpdateQuery.update_query (st : UpdateQueryState) : Except String UDoc :=
  match mergeExpressions [] st.update_expressions with
  | .ok q => .ok (Encoder.encode st.encoders q)
  | .error e => .error e

/-- Modelled from the spec: set_session binds the supplied session handle to
the query when one is provided, and leaves the current binding untouched
otherwise (bunnet/odm/interfaces/session.py is not part of the excerpt). -/
def set_session (st : UpdateQueryState) (session : Option Session) :
    UpdateQueryState :=
  match session with
  | some s => { st with session := some s }
  | none => st

/-- UpdateQuery.update: bind the session, append the expressions, bind the
batch writer when one is given, merge the passthrough options.  Returns the
mutated query (self). -/
def UpdateQuery.update (st : UpdateQueryState) (args : List UpdateExpression)
    (session : Option Session) (bulk_writer : Option BulkWriter)
    (pymongo_kwargs : KwArgs) : UpdateQueryState :=
  let st1 := set_session st session
  let st2 := { st1 with update_expressions := st1.update_expressions ++ args }
  let st3 :=
    match bulk_writer with
    | some bw => { st2 with bulk_writer := some bw }
    | none => st2
  { st3 with pymongo_kwargs := dictUpdate st3.pymongo_kwargs pymongo_kwargs }

/-- UpdateQuery.upsert: record the fallback document, then delegate to
update with the same arguments.  Returns the mutated query (self). -/
def UpdateQuery.upsert (st : UpdateQueryState) (args : List UpdateExpression)
    (on_insert : Document) (session : Option Session)
    (bulk_writer : Option BulkWriter) (pymongo_kwargs : KwArgs) :
    UpdateQueryState :=
  UpdateQuery.update { st with upsert_insert_doc := some on_insert }
    args session bulk_writer pymongo_kwargs

/-- Result of an immediate driver-level update (pymongo UpdateResult). -/
structure UpdateResult where
  matched_count : Nat
  modified_count : Nat
  deriving DecidableEq, Repr

/-- Result of a driver-level single-document insert. -/
structure InsertOneResult where
  inserted_id : Nat
  deriving DecidableEq, Repr

/-- The external execution primitives consumed by this layer: the bound
collection's update commands and the model's insert_one.  Modelled from the
spec as abstract oracles (section 6, external interfaces); insert_one
(bunnet Document.insert_one) is not part of the excerpt. -/
structure Driver where
  update_many : UDoc → UDoc → Option Session → KwArgs → UpdateResult
  update_one : UDoc → UDoc → Option Session → KwArgs → UpdateResult
  insert_one : Document → Option Session → Option BulkWriter → InsertOneResult

/-- What run() hands back to the caller: an update result, an insert result
(upsert fallback), or nothing (batched path). -/
inductive RunReturn where
  | update : UpdateResult → RunReturn
  | insert : InsertOneResult → RunReturn
  | none : RunReturn
  deriving DecidableEq, Repr

/-- A record of one fallback insert call: the document inserted and the
session and batch-writer bindings passed along to insert_one. -/
structure InsertCall where
  document : Document
  session : Option Session
  bulk_writer : Option BulkWriter
  deriving DecidableEq, Repr

/-- The observable outcome of run(): the returned value, the final state of
the bound batch writer (if any), and the trace of fallback insert calls. -/
structure RunOutcome where
  result : RunReturn
  bulk_writer : Option BulkWriter
  inserts : List InsertCall
  deriving DecidableEq, Repr

/-- UpdateMany._update: with no batch writer bound, issue an immediate
update_many against the bound collection and return its result; otherwise
enqueue a pending UpdateMany operation on the batch writer and return no
result.  The pair holds the optional synchronous result and the batch
writer's state after the call. -/
def UpdateMany._update (driver : Driver) (st : UpdateQueryState) :
    Except String (Option UpdateResult × Option BulkWriter) :=
  match st.bulk_writer with
  | none =>
    match UpdateQuery.update_query st with
    | .ok q =>
      .ok (some (driver.update_many st.find_query q st.session
        st.pymongo_kwargs), none)
    | .error e => .error e
  | some bw =>
    match UpdateQuery.update_query st with
    | .ok q =>
      .ok (none, some (bw.add_operation
        ⟨.updateManyPyMongo, st.find_query, q, st.document_model⟩))
    | .error e => .error e

/-- UpdateOne._update: same shape as UpdateMany._update with the update_one
command and the UpdateOne operation tag. -/
def UpdateOne._update (driver : Driver) (st : UpdateQueryState) :
    Except String (Option UpdateResult × Option BulkWriter) :=
  match st.bulk_writer with
  | none =>
    match UpdateQuery.update_query st with
    | .ok q =>
      .ok (some (driver.update_one st.find_query q st.session
        st.pymongo_kwargs), none)
    | .error e => .error e
  | some bw =>
    match UpdateQuery.update_query st with
    | .ok q =>
      .ok (none, some (bw.add_operation
        ⟨.updateOnePyMongo, st.find_query, q, st.document_model⟩))
    | .error e => .error e

/-- UpdateQuery.run: execute the variant-specific primitive; if no upsert
fallback document is recorded, return the primitive's result; otherwise, if
a synchronous update result was produced and matched nothing, issue the
fallback insert with the query's session and batch-writer bindings and
return its result; in every other case return the primitive's result
unchanged. -/
def UpdateQuery.run
    (updatePrim : UpdateQueryState →
      Except String (Option UpdateResult × Option BulkWriter))
    (driver : Driver) (st : UpdateQueryState) : Except String RunOutcome :=
  match updatePrim st with
  | .error e => .error e
  | .ok (update_result, bw) =>
    match st.upsert_insert_doc with
    | Option.none =>
      .ok ⟨(match update_result with
            | some r => RunReturn.update r
            | Option.none => RunReturn.none), bw, []⟩
    | some doc =>
      match update_result with
      | some r =>
        if r.matched_count = 0 then
          .ok ⟨RunReturn.insert
                (driver.insert_one doc st.session st.bulk_writer), bw,
              [⟨doc, st.session, st.bulk_writer⟩]⟩
        else
          .ok ⟨RunReturn.update r, bw, []⟩
      | Option.none => .ok ⟨RunReturn.none, bw, []⟩

/-- The two concrete query variants. -/
inductive QueryVariant where
  | many
  | one
  deriving DecidableEq, Repr

/-- The variant-specific execution primitive. -/
def variantPrim (v : QueryVariant) (driver : Driver) :
    UpdateQueryState → Except String (Option UpdateResult × Option BulkWriter) :=
  match v with
  | .many => UpdateMany._update driver
  | .one => UpdateOne._update driver

/-- run() of the given variant. -/
def variantRun (v : QueryVariant) (driver : Driver) (st : UpdateQueryState) :
    Except String RunOutcome :=
  UpdateQuery.run (variantPrim v driver) driver st

/-- Pymongo operation tag matching each variant. -/
def variantTag (v : QueryVariant) : PyMongoOp :=
  match v with
  | .many => PyMongoOp.updateManyPyMongo
  | .one => PyMongoOp.updateOnePyMongo

/-- One call of the public builder interface. -/
inductive BuilderCall where
  | update : List UpdateExpression → Option Session → Option BulkWriter →
      KwArgs → BuilderCall
  | upsert : List UpdateExpression → Document → Option Session →
      Option BulkWriter → KwArgs → BuilderCall
  deriving DecidableEq, Repr

/-- Apply one builder call to the query state. -/
def applyCall (st : UpdateQueryState) (c : BuilderCall) : UpdateQueryState :=
  match c with
  | .update args session bw kwargs =>
    UpdateQuery.update st args session bw kwargs
  | .upsert args d session bw kwargs =>
    UpdateQuery.upsert st args d session bw kwargs

/-- Apply a sequence of builder calls, left to right. -/
def runCalls (st : UpdateQueryState) (calls : List BuilderCall) :
    UpdateQueryState :=
  calls.foldl applyCall st

/-- Whether a builder call is an upsert call. -/
def BuilderCall.isUpsertCall : BuilderCall → Bool
  | .upsert _ _ _ _ _ => true
  | .update _ _ _ _ => false

/-- The batch-writer argument of a builder call. -/
def BuilderCall.bwArg : BuilderCall → Option BulkWriter
  | .update _ _ bw _ => bw
  | .upsert _ _ _ bw _ => bw

/-- Field lookup inside an update document: whether the document maps the
given keyword to a field map containing the given field. -/
def UDoc.hasField (q : UDoc) (kw : Keyword) (f : Field) : Bool :=
  match q.find? (fun p => p.1 == kw) with
  | some p => p.2.any (fun e => e.1 == f)
  | none => false

/-- A concrete document model used by concrete instances below. -/
def sampleModel : DocModel :=
  ⟨"Sample"⟩

/-- A query accumulating two raw dicts that contribute disjoint field sets
under the same keyword. -/
def c1state : UpdateQueryState :=
  UpdateQuery.update (UpdateQuery.init sampleModel [] [])
    [.dict [("$set", [("a", Val.int 1)])], .dict [("$set", [("b", Val.int 2)])]]
    none none []

/-- The same two expressions appended in the opposite order. -/
def c1stateRev : UpdateQueryState :=
  UpdateQuery.update (UpdateQuery.init sampleModel [] [])
    [.dict [("$set", [("b", Val.int 2)])], .dict [("$set", [("a", Val.int 1)])]]
    none none []

/-- C1 counterexample: merging two expressions with the same keyword and
disjoint field sets does not produce the union of the field sets — the later
expression's whole sub-mapping replaces the earlier one, so the field of the
first expression is absent, and reversing the order changes the result. -/
theorem C1_counterexample :
    UpdateQuery.update_query c1state = .ok [("$set", [("b", Val.int 2)])] ∧
    UDoc.hasField [("$set", [("b", Val.int 2)])] "$set" "a" = false ∧
    UpdateQuery.update_query c1stateRev
      = .ok [("$set", [("a", Val.int 1)])] := by
  refine ⟨rfl, rfl, rfl⟩

/-- C1 (amended): for any two expressions contributing sub-mappings under
the same modification keyword, the merged update document maps that keyword
to exactly the later expression's field-to-value sub-mapping: the top-level
merge replaces the whole sub-mapping instead of unioning field sets, so the
result depends on the order of the two expressions. -/
theorem C1_same_keyword_last_sub_mapping_wins (model : DocModel) (fq : UDoc)
    (enc : EncoderRegistry) (k : Keyword) (m1 m2 : FieldMap) :
    UpdateQuery.update_query
      (UpdateQuery.update (UpdateQuery.init model fq enc)
        [.dict [(k, m1)], .dict [(k, m2)]] none none [])
      = .ok [(k, m2)] := by
  simp [UpdateQuery.update_query, UpdateQuery.update, UpdateQuery.init,
    set_session, mergeExpressions, dictUpdate, dictSet, Encoder.encode]

/-- The query of C4: the raw dict setting x to 1, then the raw dict setting
x to 2, under the same keyword. -/
def c4state : UpdateQueryState :=
  UpdateQuery.update (UpdateQuery.init sampleModel [] [])
    [.dict [("$set", [("x", Val.int 1)])], .dict [("$set", [("x", Val.int 2)])]]
    none none []

/-- C4: on a collision of the same keyword and field, the later expression
wins: the merged update document sets x to 2. -/
theorem C4_last_write_wins :
    UpdateQuery.update_query c4state = .ok [("$set", [("x", Val.int 2)])] :=
  rfl

/-- The query of C5: the Max operator on x, then a raw dict setting x. -/
def c5state : UpdateQueryState :=
  UpdateQuery.update (UpdateQuery.init sampleModel [] [])
    [.operator (Max [("x", Val.int 10)]),
     .dict [("$set", [("x", Val.int 100)])]]
    none none []

/-- C5: entries contributed under different modification keywords never
collide: Max on x followed by a raw set of x yields both keyword entries. -/
theorem C5_cross_keyword_independence :
    UpdateQuery.update_query c5state
      = .ok [("$max", [("x", Val.int 10)]), ("$set", [("x", Val.int 100)])] :=
  rfl

/-- If some expression in the list is not mergeable (neither an operator
object nor a dict instance), the accumulation loop raises the
wrong-expression-type error, whatever the accumulator holds. -/
lemma mergeExpressions_error (l : List UpdateExpression) (acc : UDoc)
    (h : ∃ e ∈ l, e.isMergeable = false) :
    mergeExpressions acc l = .error "Wrong expression type" := by
  induction l generalizing acc with
  | nil => simp at h
  | cons a l ih =>
    rcases h with ⟨e, he, hbad⟩
    rcases List.mem_cons.mp he with rfl | hmem
    · cases e <;> simp [UpdateExpression.isMergeable] at hbad <;>
        simp [mergeExpressions]
    · cases a with
      | operator op => exact ih _ ⟨e, hmem, hbad⟩
      | dict d => exact ih _ ⟨e, hmem, hbad⟩
      | mappingNonDict d => simp [mergeExpressions]
      | other => simp [mergeExpressions]

/-- update_query propagates the accumulation error. -/
lemma update_query_error (st : UpdateQueryState)
    (h : ∃ e ∈ st.update_expressions, e.isMergeable = false) :
    UpdateQuery.update_query st = .error "Wrong expression type" := by
  unfold UpdateQuery.update_query
  rw [mergeExpressions_error _ _ h]

/-- run() of either variant propagates the accumulation error: no outcome
(no driver update, no enqueue, no fallback insert) is produced. -/
lemma variantRun_error (v : QueryVariant) (driver : Driver)
    (st : UpdateQueryState)
    (h : ∃ e ∈ st.update_expressions, e.isMergeable = false) :
    variantRun v driver st = .error "Wrong expression type" := by
  have hq := update_query_error st h
  cases v <;> cases hb : st.bulk_writer <;>
    simp [variantRun, variantPrim, UpdateMany._update, UpdateOne._update,
      UpdateQuery.run, hq, hb]

/-- C6: an expression that is neither an update-operator object nor a
mapping makes update_query fail with the wrong-expression-type error, and
run() of either variant fails the same way before any driver call: no
update result, no enqueued operation and no fallback insert is produced. -/
theorem C6_type_rejection (v : QueryVariant) (driver : Driver)
    (st : UpdateQueryState)
    (h : ∃ e ∈ st.update_expressions, e.isOther = true) :
    UpdateQuery.update_query st = .error "Wrong expression type" ∧
    variantRun v driver st = .error "Wrong expression type" := by
  have hbad : ∃ e ∈ st.update_expressions, e.isMergeable = false := by
    rcases h with ⟨e, he, h2⟩
    refine ⟨e, he, ?_⟩
    cases e <;> simp_all [UpdateExpression.isOther, UpdateExpression.isMergeable]
  exact ⟨update_query_error st hbad, variantRun_error v driver st hbad⟩

/-- A query holding one expression of a type the merge does not accept. -/
def c6state : UpdateQueryState :=
  UpdateQuery.update (UpdateQuery.init sampleModel [] [])
    [.other] none none []

/-- A concrete driver whose update commands match nothing and whose insert
echoes the inserted document's id. -/
def cDriver : Driver :=
  ⟨fun _ _ _ _ => ⟨0, 0⟩, fun _ _ _ _ => ⟨0, 0⟩, fun d _ _ => ⟨d.id⟩⟩

/-- Witness for C6 at a concrete one-expression query. -/
theorem C6_witness :
    UpdateQuery.update_query c6state = .error "Wrong expression type" ∧
    variantRun .many cDriver c6state = .error "Wrong expression type" :=
  C6_type_rejection .many cDriver c6state (by decide)

/-- C9: an expression that is a Mapping but not a dict instance is rejected
the same way: update_query fails with the wrong-expression-type error. -/
theorem C9_non_dict_mapping_rejected (st : UpdateQueryState)
    (h : ∃ e ∈ st.update_expressions, e.isNonDictMapping = true) :
    UpdateQuery.update_query st = .error "Wrong expression type" := by
  apply update_query_error
  rcases h with ⟨e, he, h2⟩
  refine ⟨e, he, ?_⟩
  cases e <;>
    simp_all [UpdateExpression.isNonDictMapping, UpdateExpression.isMergeable]

/-- A query holding one non-dict Mapping expression. -/
def c9state : UpdateQueryState :=
  UpdateQuery.update (UpdateQuery.init sampleModel [] [])
    [.mappingNonDict [("$set", [("x", Val.int 1)])]] none none []

/-- Witness for C9 at a concrete one-expression query. -/
theorem C9_witness :
    UpdateQuery.update_query c9state = .error "Wrong expression type" :=
  C9_non_dict_mapping_rejected c9state (by decide)

/-- The specification's description of upsert: first record the fallback
document, then delegate to update with the same expressions, session, batch
writer and passthrough options, returning the mutated query. -/
def upsert_spec (st : UpdateQueryState) (args : List UpdateExpression)
    (on_insert : Document) (session : Option Session)
    (bulk_writer : Option BulkWriter) (pymongo_kwargs : KwArgs) :
    UpdateQueryState :=
  UpdateQuery.update { st with upsert_insert_doc := some on_insert }
    args session bulk_writer pymongo_kwargs

/-- C8: for every argument tuple, upsert produces exactly the state obtained
by recording the fallback document and then calling update with the same
arguments; both are pure state transformers returning the mutated query
itself, with no further effect. -/
theorem C8_upsert_delegates_to_update (st : UpdateQueryState)
    (args : List UpdateExpression) (on_insert : Document)
    (session : Option Session) (bulk_writer : Option BulkWriter)
    (pymongo_kwargs : KwArgs) :
    UpdateQuery.upsert st args on_insert session bulk_writer pymongo_kwargs
      = upsert_spec st args on_insert session bulk_writer pymongo_kwargs :=
  rfl

/-- update with no batch-writer argument leaves the bound writer as it was. -/
lemma update_bulk_writer_none (st : UpdateQueryState)
    (args : List UpdateExpression) (session : Option Session)
    (kwargs : KwArgs) :
    (UpdateQuery.update st args session none kwargs).bulk_writer
      = st.bulk_writer := by
  cases session <;> rfl

/-- upsert with no batch-writer argument leaves the bound writer as it was. -/
lemma upsert_bulk_writer_none (st : UpdateQueryState)
    (args : List UpdateExpression) (d : Document) (session : Option Session)
    (kwargs : KwArgs) :
    (UpdateQuery.upsert st args d session none kwargs).bulk_writer
      = st.bulk_writer := by
  cases session <;> rfl

/-- C10: over any sequence of update/upsert builder calls whose batch-writer
argument is omitted (None), the bound batch-writer field of the query is
unchanged; in particular a previously bound batch writer can never be
cleared back to immediate execution through the public builder interface. -/
theorem C10_bulk_writer_sticky (st : UpdateQueryState)
    (calls : List BuilderCall) (h : ∀ c ∈ calls, c.bwArg = none) :
    (runCalls st calls).bulk_writer = st.bulk_writer := by
  induction calls generalizing st with
  | nil => rfl
  | cons c cs ih =>
    have hc : c.bwArg = none := h c (List.mem_cons_self c cs)
    have hrest : ∀ x ∈ cs, x.bwArg = none :=
      fun x hx => h x (List.mem_cons_of_mem c hx)
    show (runCalls (applyCall st c) cs).bulk_writer = st.bulk_writer
    rw [ih (applyCall st c) hrest]
    cases c with
    | update args session bw kwargs =>
      simp only [BuilderCall.bwArg] at hc
      subst hc
      exact update_bulk_writer_none st args session kwargs
    | upsert args d session bw kwargs =>
      simp only [BuilderCall.bwArg] at hc
      subst hc
      exact upsert_bulk_writer_none st args d session kwargs

/-- A query already bound to a batch writer. -/
def c10state : UpdateQueryState :=
  UpdateQuery.update (UpdateQuery.init sampleModel [] [])
    [.dict [("$set", [("x", Val.int 1)])]] none (some ⟨[]⟩) []

/-- Witness for C10: two further calls without a batch-writer argument keep
the previously bound writer in place. -/
theorem C10_witness :
    (runCalls c10state
        [.update [.dict [("$set", [("y", Val.int 2)])]] none none [],
         .upsert [] ⟨5⟩ none none []]).bulk_writer
      = c10state.bulk_writer :=
  C10_bulk_writer_sticky c10state
    [.update [.dict [("$set", [("y", Val.int 2)])]] none none [],
     .upsert [] ⟨5⟩ none none []] (by decide)

/-- update never touches the is_upsert flag. -/
lemma update_is_upsert (st : UpdateQueryState) (args : List UpdateExpression)
    (session : Option Session) (bw : Option BulkWriter) (kwargs : KwArgs) :
    (UpdateQuery.update st args session bw kwargs).is_upsert = st.is_upsert := by
  cases session <;> cases bw <;> rfl

/-- upsert never touches the is_upsert flag either. -/
lemma upsert_is_upsert (st : UpdateQueryState) (args : List UpdateExpression)
    (d : Document) (session : Option Session) (bw : Option BulkWriter)
    (kwargs : KwArgs) :
    (UpdateQuery.upsert st args d session bw kwargs).is_upsert
      = st.is_upsert := by
  cases session <;> cases bw <;> rfl

/-- update never touches the fallback document. -/
lemma update_upsert_doc (st : UpdateQueryState) (args : List UpdateExpression)
    (session : Option Session) (bw : Option BulkWriter) (kwargs : KwArgs) :
    (UpdateQuery.update st args session bw kwargs).upsert_insert_doc
      = st.upsert_insert_doc := by
  cases session <;> cases bw <;> rfl

/-- upsert records its on_insert argument as the fallback document. -/
lemma upsert_upsert_doc (st : UpdateQueryState) (args : List UpdateExpression)
    (d : Document) (session : Option Session) (bw : Option BulkWriter)
    (kwargs : KwArgs) :
    (UpdateQuery.upsert st args d session bw kwargs).upsert_insert_doc
      = some d := by
  cases session <;> cases bw <;> rfl

/-- The is_upsert flag survives any sequence of builder calls unchanged. -/
lemma runCalls_is_upsert (st : UpdateQueryState) (calls : List BuilderCall) :
    (runCalls st calls).is_upsert = st.is_upsert := by
  induction calls generalizing st with
  | nil => rfl
  | cons c cs ih =>
    show (runCalls (applyCall st c) cs).is_upsert = st.is_upsert
    rw [ih (applyCall st c)]
    cases c with
    | update args session bw kwargs => exact update_is_upsert st args session bw kwargs
    | upsert args d session bw kwargs =>
      exact upsert_is_upsert st args d session bw kwargs

/-- The fallback document is absent after a sequence of builder calls
exactly when it was absent before and no call of the sequence was an upsert
call. -/
lemma runCalls_doc_none_iff (st : UpdateQueryState) (calls : List BuilderCall) :
    (runCalls st calls).upsert_insert_doc = none ↔
      (st.upsert_insert_doc = none ∧ ∀ c ∈ calls, c.isUpsertCall = false) := by
  induction calls generalizing st with
  | nil => simp [runCalls]
  | cons c cs ih =>
    have hstep : runCalls st (c :: cs) = runCalls (applyCall st c) cs := rfl
    rw [hstep, ih (applyCall st c)]
    cases c with
    | update args session bw kwargs =>
      simp [applyCall, BuilderCall.isUpsertCall,
        update_upsert_doc st args session bw kwargs, List.forall_mem_cons,
        and_assoc]
    | upsert args d session bw kwargs =>
      simp [applyCall, BuilderCall.isUpsertCall,
        upsert_upsert_doc st args d session bw kwargs, List.forall_mem_cons]

/-- A freshly built query on which upsert was called once. -/
def c7state : UpdateQueryState :=
  runCalls (UpdateQuery.init sampleModel [] [])
    [.upsert [] ⟨1⟩ none none []]

/-- C7 counterexample: after one upsert call on a fresh query the fallback
document is recorded but the is_upsert flag is still false, so the claimed
biconditional between a non-null fallback document and the upsert flag
fails. -/
theorem C7_counterexample :
    ¬ ((c7state.upsert_insert_doc ≠ none) ↔ c7state.is_upsert = true) := by
  decide

/-- C7 (amended): over every sequence of update/upsert builder calls on a
freshly constructed query, the fallback document is non-null exactly when
some upsert call was made; the is_upsert flag is never written by any
builder call and remains false, so upsert-mode activation is tracked by the
fallback document alone, not by the flag. -/
theorem C7_fallback_doc_iff_upsert_called (model : DocModel) (fq : UDoc)
    (enc : EncoderRegistry) (calls : List BuilderCall) :
    ((runCalls (UpdateQuery.init model fq enc) calls).upsert_insert_doc ≠ none
        ↔ ∃ c ∈ calls, c.isUpsertCall = true)
    ∧ (runCalls (UpdateQuery.init model fq enc) calls).is_upsert = false := by
  constructor
  · have h := runCalls_doc_none_iff (UpdateQuery.init model fq enc) calls
    rw [Ne, h]
    simp [UpdateQuery.init]
  · rw [runCalls_is_upsert]
    rfl

/-- The immediate update command of each variant. -/
def variantCmd (v : QueryVariant) (driver : Driver) :
    UDoc → UDoc → Option Session → KwArgs → UpdateResult :=
  match v with
  | .many => driver.update_many
  | .one => driver.update_one

/-- C2: for a query in upsert mode (a fallback document recorded) with no
batch writer bound, run() of either variant inspects the matched count of
the immediate update command: on zero matches it issues exactly one
fallback insert of the recorded document with the query's session and
(absent) batch-writer binding and returns the insert's result; on one or
more matches it returns the update result unchanged and performs no
insert. -/
theorem C2_upsert_fallback_on_zero_matches (v : QueryVariant)
    (driver : Driver) (st : UpdateQueryState) (doc : Document) (q : UDoc)
    (hbw : st.bulk_writer = none)
    (hdoc : st.upsert_insert_doc = some doc)
    (hq : UpdateQuery.update_query st = .ok q) :
    ((variantCmd v driver st.find_query q st.session
          st.pymongo_kwargs).matched_count = 0 →
        variantRun v driver st =
          .ok ⟨RunReturn.insert (driver.insert_one doc st.session none), none,
               [⟨doc, st.session, none⟩]⟩)
    ∧ ((variantCmd v driver st.find_query q st.session
          st.pymongo_kwargs).matched_count ≠ 0 →
        variantRun v driver st =
          .ok ⟨RunReturn.update (variantCmd v driver st.find_query q
                  st.session st.pymongo_kwargs), none, []⟩) := by
  cases v <;>
    exact ⟨fun hm => by
        simp only [variantCmd] at hm
        simp [variantRun, variantPrim, variantCmd, UpdateMany._update,
          UpdateOne._update, UpdateQuery.run, hbw, hdoc, hq, hm],
      fun hm => by
        simp only [variantCmd] at hm
        simp [variantRun, variantPrim, variantCmd, UpdateMany._update,
          UpdateOne._update, UpdateQuery.run, hbw, hdoc, hq, hm]⟩

/-- A concrete upsert-mode query with no batch writer bound. -/
def c2state : UpdateQueryState :=
  UpdateQuery.upsert (UpdateQuery.init sampleModel [] [])
    [.dict [("$set", [("x", Val.int 1)])]] ⟨7⟩ none none []

/-- Witness for C2: with the concrete driver matching nothing, run() of the
update-many variant returns the fallback insert's result and records exactly
one insert call. -/
theorem C2_witness :
    variantRun .many cDriver c2state =
      .ok ⟨RunReturn.insert ⟨7⟩, none, [⟨⟨7⟩, none, none⟩]⟩ := by
  exact (C2_upsert_fallback_on_zero_matches .many cDriver c2state ⟨7⟩
    [("$set", [("x", Val.int 1)])] rfl rfl rfl).1 rfl

/-- C3: for a query bound to a batch writer, run() of either variant
enqueues exactly one pending operation on that writer — tagged with the
pymongo class matching the variant and carrying the filter document, the
merged update document and the owning model — returns no result, and makes
no fallback insert, whether or not upsert mode is active. -/
theorem C3_batched_enqueue_no_result (v : QueryVariant) (driver : Driver)
    (st : UpdateQueryState) (bw : BulkWriter) (q : UDoc)
    (hbw : st.bulk_writer = some bw)
    (hq : UpdateQuery.update_query st = .ok q) :
    variantRun v driver st =
      .ok ⟨RunReturn.none,
           some (bw.add_operation
             ⟨variantTag v, st.find_query, q, st.document_model⟩),
           []⟩ := by
  cases v <;> cases hdoc : st.upsert_insert_doc <;>
    simp [variantRun, variantPrim, variantTag, UpdateMany._update,
      UpdateOne._update, UpdateQuery.run, hbw, hq, hdoc]

/-- A concrete upsert-mode query bound to an empty batch writer. -/
def c3state : UpdateQueryState :=
  UpdateQuery.upsert (UpdateQuery.init sampleModel [] [])
    [.dict [("$set", [("x", Val.int 1)])]] ⟨7⟩ none (some ⟨[]⟩) []

/-- Witness for C3: the batched update-one query enqueues one UpdateOne
operation and returns no result despite upsert mode being active. -/
theorem C3_witness :
    variantRun .one cDriver c3state =
      .ok ⟨RunReturn.none,
           some ⟨[⟨PyMongoOp.updateOnePyMongo, [],
                   [("$set", [("x", Val.int 1)])], sampleModel⟩]⟩,
           []⟩ := by
  exact C3_batched_enqueue_no_result .one cDriver c3state ⟨[]⟩
    [("$set", [("x", Val.int 1)])] rfl rfl

end Bunnet
